import Mathlib

/-!
Shallow embedding of the KS8851 SPI Ethernet driver
(`drivers/net/ethernet/micrel/ks8851.c`) and verification of its
specification claims.

Machine integers are modelled as `Nat` with explicit `% 2^w` where the C
code can wrap.  Byte-order conversions (`htonl`, `htons`) on the
little-endian host are modelled as arithmetic byte swaps.  Register bit
masks and addresses come from the driver header `ks8851.h`, which is not
part of the sources here; their values are modelled from the spec's
description of the register protocol and the chip's register map.  Only
their distinctness matters for the theorems below.
-/

namespace KS8851

/-- `ALIGN(x, 4)` from the kernel: round `x` up to a multiple of 4
(no overflow for the sizes involved). -/
def align4 (x : Nat) : Nat := (x + 3) / 4 * 4

/-- `ALIGN(x, 4)` computed in 32-bit unsigned arithmetic, used where the
operand itself is the result of a possibly-wrapping `u32` subtraction. -/
def align4u32 (x : Nat) : Nat := (x + 3) % 4294967296 / 4 * 4

/-- `htons`/`ntohs` on a little-endian host: swap the two bytes of a
16-bit value. -/
def bswap16 (n : Nat) : Nat := n % 256 * 256 + n / 256 % 256

/-- `htonl`/`ntohl` on a little-endian host: reverse the four bytes of a
32-bit value. -/
def bswap32 (n : Nat) : Nat :=
  n % 256 * 16777216 + n / 256 % 256 * 65536 + n / 65536 % 256 * 256 +
    n / 16777216 % 256

/-! Constants defined at the top of `ks8851.c`. -/

/-- `#define KSZ8851_TX_SPACE (6144 * 3)` -/
def KSZ8851_TX_SPACE : Nat := 6144 * 3

/-- `#define MAX_RXFIFO_SIZE (12 * 1024)` -/
def MAX_RXFIFO_SIZE : Nat := 12 * 1024

/-! ## Bus transaction layer: command-word construction (`MK_OP`) -/

/-- `#define BYTE_EN(_x) ((_x) << 2)` — shift for byte-enable data. -/
def BYTE_EN (x : Nat) : Nat := x <<< 2

/-- `#define MK_OP(_byteen, _reg) (BYTE_EN(_byteen) | (_reg) << (8+2) | (_reg) >> 6)`
— turn register number and byte-enable mask into the command word. -/
def MK_OP (byteen reg : Nat) : Nat :=
  BYTE_EN byteen ||| (reg <<< (8 + 2)) ||| (reg >>> 6)

/-- Byte-enable selection of the 8-bit register accessors
(`ks8851_wrreg8` / `ks8851_rdreg8`): `1 << (reg & 3)`. -/
def byteen8 (reg : Nat) : Nat := 1 <<< (reg &&& 3)

/-- Byte-enable selection of the 16-bit register accessors
(`ks8851_wrreg16` / `ks8851_rdreg16`): `reg & 2 ? 0xC : 0x3`. -/
def byteen16 (reg : Nat) : Nat := if reg &&& 2 ≠ 0 then 0xC else 0x3

/-- Command word issued by the 8-bit register accessors. -/
def ks8851_op8 (reg : Nat) : Nat := MK_OP (byteen8 reg) reg

/-- Command word issued by the 16-bit register accessors. -/
def ks8851_op16 (reg : Nat) : Nat := MK_OP (byteen16 reg) reg

/-- Command word as the spec's words describe it:
`(byteEnableMask << 2) | (register << 10) | (register >> 6)`. -/
def specCommandWord (mask reg : Nat) : Nat :=
  (mask <<< 2) ||| (reg <<< 10) ||| (reg >>> 6)

/-! ## Register addresses and bit masks

Modelled from the spec: the driver header `ks8851.h` with the register
addresses and bit definitions is not among the sources, so the values
below follow the spec's description of the register protocol and the
KS8851 register map.  The theorems only rely on distinctness of the
addresses and disjointness of the bit masks. -/

def KS_GRR : Nat := 0x26
def GRR_QMU : Nat := 1 <<< 1
def GRR_GSR : Nat := 1 <<< 0
def KS_TXCR : Nat := 0x70
def TXCR_TXFCE : Nat := 1 <<< 3
def TXCR_TXPE : Nat := 1 <<< 2
def TXCR_TXCRC : Nat := 1 <<< 1
def TXCR_TXE : Nat := 1 <<< 0
def KS_RXCR1 : Nat := 0x74
def RXCR1_RXPAFMA : Nat := 1 <<< 11
def RXCR1_RXFCE : Nat := 1 <<< 10
def RXCR1_RXMAFMA : Nat := 1 <<< 8
def RXCR1_RXBE : Nat := 1 <<< 7
def RXCR1_RXME : Nat := 1 <<< 6
def RXCR1_RXUE : Nat := 1 <<< 5
def RXCR1_RXAE : Nat := 1 <<< 4
def RXCR1_RXINVF : Nat := 1 <<< 1
def RXCR1_RXE : Nat := 1 <<< 0
def KS_RXCR2 : Nat := 0x76
def RXCR2_SRDBL_FRAME : Nat := 4 <<< 5
def KS_TXMIR : Nat := 0x78
def KS_RXFHBCR : Nat := 0x7E
def KS_TXQCR : Nat := 0x80
def TXQCR_AETFE : Nat := 1 <<< 2
def KS_RXQCR : Nat := 0x82
def RXQCR_RXDTTE : Nat := 1 <<< 7
def RXQCR_RXDBCTE : Nat := 1 <<< 6
def RXQCR_RXFCTE : Nat := 1 <<< 5
def RXQCR_SDA : Nat := 1 <<< 3
def RXQCR_RRXEF : Nat := 1 <<< 0
def KS_TXFDPR : Nat := 0x84
def TXFDPR_TXFPAI : Nat := 1 <<< 14
def KS_RXFDPR : Nat := 0x86
def RXFDPR_RXFPAI : Nat := 1 <<< 14
def KS_RXDTTR : Nat := 0x8C
def KS_RXDBCTR : Nat := 0x8E
def KS_IER : Nat := 0x90
def KS_ISR : Nat := 0x92
def IRQ_LCI : Nat := 1 <<< 15
def IRQ_TXI : Nat := 1 <<< 14
def IRQ_RXI : Nat := 1 <<< 13
def IRQ_RXOI : Nat := 1 <<< 11
def IRQ_TXPSI : Nat := 1 <<< 9
def IRQ_RXPSI : Nat := 1 <<< 8
def IRQ_LDI : Nat := 1 <<< 3
def IRQ_SPIBEI : Nat := 1 <<< 1
def KS_RXFC : Nat := 0x9D
def KS_MAHTR0 : Nat := 0xA0
def KS_MAHTR1 : Nat := 0xA2
def KS_MAHTR2 : Nat := 0xA4
def KS_MAHTR3 : Nat := 0xA6
def KS_FCLWR : Nat := 0xB0
def KS_FCHWR : Nat := 0xB2
def KS_PMECR : Nat := 0xD4
def PMECR_WKEVT_MASK : Nat := 0xf <<< 2
def PMECR_WKEVT_LINK : Nat := 0x2 <<< 2
def PMECR_PM_MASK : Nat := 0x3
def PMECR_PM_NORMAL : Nat := 0x0

/-- Modelled from the spec: the transmit frame-id field occupies the low
13 bits of the 16-bit id/control word (`TXFR_TXFID_MASK` in the missing
header); "frame id incrementing mod the id-field width, low 13 bits". -/
def TXFR_TXFID_MASK : Nat := 0x1fff

/-- Modelled from the spec: the interrupt-coalescing ("IRQ on
completion") flag bit of the id/control word (`TXFR_TXIC`), disjoint
from the frame-id field. -/
def TXFR_TXIC : Nat := 1 <<< 15

/-- `STD_IRQ` as defined in `ks8851_net_open`. -/
def STD_IRQ : Nat :=
  IRQ_LCI ||| IRQ_TXI ||| IRQ_RXI ||| IRQ_SPIBEI ||| IRQ_TXPSI ||| IRQ_RXPSI

/-! ## Data model (`struct ks8851_net` and friends) -/

/-- `struct ks8851_rxctrl`: multicast hash table and the two receive
control words. -/
structure Rxctrl where
  mchash0 : Nat
  mchash1 : Nat
  mchash2 : Nat
  mchash3 : Nat
  rxcr1 : Nat
  rxcr2 : Nat
deriving DecidableEq, Repr

/-- The all-zero receive filter settings (`memset(&rxctrl, 0, ...)`). -/
def Rxctrl.zero : Rxctrl := ⟨0, 0, 0, 0, 0, 0⟩

/-- An outbound frame (`struct sk_buff` as the driver uses it): its true
byte length and its payload viewed as 32-bit host words
(`(u32 *)txb->data`). -/
structure Frame where
  len : Nat
  data : List Nat
deriving DecidableEq, Repr

/-- The `net_device` statistics the driver touches. -/
structure KSStats where
  rx_packets : Nat := 0
  rx_bytes : Nat := 0
  tx_packets : Nat := 0
  tx_bytes : Nat := 0
  rx_over_errors : Nat := 0
deriving DecidableEq, Repr

/-- The mutable driver state of `struct ks8851_net` that the claims are
about, together with two instrumentation counters for deferred-work
submissions (`queue_work` / `schedule_work` calls). -/
structure KSState where
  tx_space : Nat := 0
  fid : Nat := 0
  txq : List Frame := []
  rxctrl : Rxctrl := Rxctrl.zero
  rc_rxqcr : Nat := 0
  rc_ier : Nat := 0
  queueStopped : Bool := false
  stats : KSStats := {}
  txWorkQueued : Nat := 0
  rxctrlWorkQueued : Nat := 0
deriving DecidableEq, Repr

/-! ## Transmit pipeline -/

/-- `calc_txlen`: size of the TXFIFO message needed to send a packet of
`len` bytes — `4 + ALIGN(len, 4)`. -/
def calc_txlen (len : Nat) : Nat := 4 + align4 len

/-- The 32-bit header word built by `ks8851_wrpkts3` for one frame:
`htonl(cpu_to_le16(txb->len) << 16 | cpu_to_le16(fid))` on the
little-endian host, where `fid` has already been masked with
`TXFR_TXFID_MASK` and, when `ic` holds, had `TXFR_TXIC` or-ed in (the
two fields are disjoint, so the or is an addition). -/
def ks8851_tx_hdr (rawfid len : Nat) (ic : Bool) : Nat :=
  let fid := rawfid % 8192
  let fid := if ic then fid + TXFR_TXIC else fid
  bswap32 (len % 65536 * 65536 + fid)

/-- Modelled from the spec: the decoder of the transmit header word (the
device side is not in the sources).  Undo the byte-order conversion,
read the length from the high 16 bits and the frame id from the
id-field (low 13) bits of the low 16 bits. -/
def ks8851_tx_hdr_decode (w : Nat) : Nat × Nat :=
  let v := bswap32 w
  (v % 65536 % 8192, v / 65536)

/-- Result of one `ks8851_wrpkts3` batch. -/
structure WrpktsLoopResult where
  remaining : List Frame
  fid : Nat
  len : Nat
  words : List Nat
  txBytes : Nat
  txPkts : Nat
deriving Repr

/-- The dequeue loop of `ks8851_wrpkts3`:
`for (count = 0; !last && len < 6144; count++)` — dequeue a frame,
recompute `last`, emit the header word and the byte-swapped payload
words, and account `len += 4 + ALIGN(txb->len, 4)` (a `u16`).  The
queue is the recursion measure; an empty queue is exactly `last`. -/
def wrpkts3_loop : List Frame → Nat → Nat → List Nat → Nat → Nat →
    WrpktsLoopResult
  | [], fid, len, acc, bytes, pkts => ⟨[], fid, len, acc, bytes, pkts⟩
  | txb :: rest, fid, len, acc, bytes, pkts =>
    if len < 6144 then
      let last := rest.isEmpty
      let hdr := ks8851_tx_hdr fid txb.len (last || 6144 ≤ len)
      let cpy := align4 txb.len / 4
      let payload := (List.range cpy).map fun i => bswap32 (txb.data.getD i 0)
      wrpkts3_loop rest ((fid + 1) % 256) ((len + (4 + align4 txb.len)) % 65536)
        (acc ++ hdr :: payload) (bytes + txb.len) (pkts + 1)
    else ⟨txb :: rest, fid, len, acc, bytes, pkts⟩

/-- `ks8851_wrpkts3`: allocate the bulk transmit buffer (`allocOk` is
the outcome of the `kmalloc`; on failure the function returns with the
queue untouched), pack frames from the head of the queue until the
6144-byte batch cap, and issue one bulk write of the packed words.
Returns the new driver state and the words written to the bus. -/
def ks8851_wrpkts3 (s : KSState) (allocOk : Bool) : KSState × List Nat :=
  if !allocOk then (s, [])
  else
    let r := wrpkts3_loop s.txq s.fid 0 [] 0 0
    ({ s with
        txq := r.remaining
        fid := r.fid
        stats := { s.stats with
          tx_bytes := s.stats.tx_bytes + r.txBytes
          tx_packets := s.stats.tx_packets + r.txPkts } },
      r.words)

/-- The inner `while (!last)` loop of `ks8851_tx_work`: call
`ks8851_wrpkts3` until the queue drains.  Each call on a non-empty
queue consumes at least one frame, so the queue length bounds the
iteration count (`fuel`). -/
def tx_work_loop : Nat → KSState → KSState
  | 0, s => s
  | fuel + 1, s =>
    if s.txq.isEmpty then s else tx_work_loop fuel (ks8851_wrpkts3 s true).1

/-- `ks8851_tx_work`: under the bus lock, if the queue is non-empty,
program `TXQCR`/`RXQCR` and write batches until the queue drains. -/
def ks8851_tx_work (s : KSState) : KSState :=
  if s.txq.isEmpty then s else tx_work_loop (s.txq.length + 1) s

/-- Outcome of `ks8851_start_xmit` (`netdev_tx_t`). -/
inductive NetdevTx where
  | ok
  | busy
deriving DecidableEq, Repr

/-- `ks8851_start_xmit`: compute `needed = calc_txlen(skb->len)`; under
the state lock, refuse the frame (and stop the queue) when
`needed > tx_space`, otherwise debit the space budget and append the
frame to the queue tail; unconditionally submit the transmit work. -/
def ks8851_start_xmit (skb : Frame) (s : KSState) : KSState × NetdevTx :=
  let needed := calc_txlen skb.len
  let (s, ret) :=
    if s.tx_space < needed then
      ({ s with queueStopped := true }, NetdevTx.busy)
    else
      ({ s with
          tx_space := s.tx_space - needed
          txq := s.txq ++ [skb] }, NetdevTx.ok)
  ({ s with txWorkQueued := s.txWorkQueued + 1 }, ret)

/-! ## Receive pipeline

The device side of each bus exchange is an input: the frame-count byte,
the words answered by the chained size-probe reads, the words of the
primary bulk FIFO read, and the words of the recovery bulk read.
Allocation outcomes are an oracle `a : Nat → Bool` indexed by the
running allocation counter `ai`. -/

/-- Device-side inputs of one receive-pipeline invocation. -/
structure RxDev where
  rxfc : Nat
  probeWords : List Nat
  fifoWords : List Nat
  extraWords : List Nat
deriving Repr

/-- The accumulation loop of `ks8851_rdfifolen`: for each probe word,
stop once the running total has reached `MAX_RXFIFO_SIZE`, otherwise
add `ALIGN(htons((u16)rxd[count]) & 0xfff, 4) + 4`. -/
def rdfifolen_sum : List Nat → Nat → Nat
  | [], acc => acc
  | w :: ws, acc =>
    if MAX_RXFIFO_SIZE ≤ acc then acc
    else rdfifolen_sum ws (acc + (align4 (bswap16 (w % 65536) % 4096) + 4))

/-- `ks8851_rdfifolen`: two allocations (`kmalloc` of the probe buffer
and `spi_message_alloc`), each of which may fail with `-ENOMEM`
(`none`); then one chained read of `fc` per-frame byte-count words,
accumulated and finally given a trailing `+ 4` and capped at
`MAX_RXFIFO_SIZE`.  Returns the estimate and the next allocation
index. -/
def ks8851_rdfifolen (fc : Nat) (probeWords : List Nat) (a : Nat → Bool)
    (ai : Nat) : Option Nat × Nat :=
  if !a ai then (none, ai + 1)
  else if !a (ai + 1) then (none, ai + 2)
  else
    let tmp := rdfifolen_sum (probeWords.take fc) 0 + 4
    (some (if MAX_RXFIFO_SIZE ≤ tmp then MAX_RXFIFO_SIZE else tmp), ai + 2)

/-- One frame delivered upward by the decode loop: the `skb` payload
length (`rxalign`), the true frame length (`rxlen`, kept for delivery
statistics), and the payload words after the in-place `htonl` swap. -/
structure RxFrame where
  rxalign : Nat
  rxlen : Nat
  payload : List Nat
deriving Repr

/-- Result of the decode loop: frames delivered in order, whether the
function returned early (`aborted`, only on a failed `kzalloc` of the
recovery buffer), and the next allocation index. -/
structure RxLoopResult where
  delivered : List RxFrame
  aborted : Bool
  ai : Nat
deriving Repr

/-- The decode loop of `ks8851_rx_pkts3`
(`for (index32 = 1; rxfc > 0; rxfc--)`), recursing on the remaining
frame count.  Each iteration reads the envelope word, computes
`rxlen = (htonl(buf32[index32]) >> 16) & 0xfff`,
`rxalign = ALIGN(rxlen - 4, 4)` (`u32` arithmetic) and
`rxlen32 = ALIGN(rxlen, 4) / 4`.  When the frame overruns the fetched
buffer: give up if the estimate was already size-capped; otherwise
allocate the recovery buffer (early return on failure), splice the
in-bounds bytes with one follow-up bulk read, deliver that frame and
stop.  Otherwise swap the payload words in place and deliver.  The
in-place `htonl` swap is recorded on the delivered payload; swapped
words are never re-read as envelopes, so the walk buffer itself can
stay immutable. -/
def rx_loop (cur extra : List Nat) (rxfifosize : Nat) (a : Nat → Bool) :
    Nat → Nat → Nat → Nat → RxLoopResult
  | 0, _, _, ai => ⟨[], false, ai⟩
  | rxfc + 1, idx, totallen, ai =>
    let rxlen := bswap32 (cur.getD idx 0) / 65536 % 4096
    let idx := idx + 1
    let rxalign := align4u32 ((rxlen + 4294967292) % 4294967296)
    let rxlen32 := align4 rxlen / 4
    let totallen := totallen + rxalign
    if rxfifosize < totallen then
      if MAX_RXFIFO_SIZE ≤ rxfifosize then ⟨[], false, ai⟩
      else if !a ai then ⟨[], true, ai + 1⟩
      else
        let keepW := (rxalign - (totallen - rxfifosize)) / 4
        let shortW := (totallen - rxfifosize) / 4
        let buf1 := (cur.drop idx).take keepW ++ extra.take shortW
        let payload := ((List.range rxlen32).map fun i =>
          bswap32 (buf1.getD i 0)).take (rxalign / 4)
        ⟨[⟨rxalign, rxlen, payload⟩], false, ai + 1⟩
    else
      let payload := ((List.range rxlen32).map fun i =>
        bswap32 (cur.getD (idx + i) 0)).take (rxalign / 4)
      let r := rx_loop cur extra rxfifosize a rxfc (idx + rxlen32) totallen ai
      ⟨⟨rxalign, rxlen, payload⟩ :: r.delivered, r.aborted, r.ai⟩

/-- Result of one `ks8851_rx_pkts3` invocation: register writes issued
in order and frames delivered upward. -/
structure RxResult where
  writes : List (Nat × Nat)
  delivered : List RxFrame
deriving Repr

/-- `ks8851_rx_pkts3`: read the frame count (a byte register) and
return at once when it is zero; run the size probe (early return when
it fails); allocate the bulk buffer (early return on failure); program
`RXFDPR`, assert DMA via `RXQCR | SDA`, bulk-read, run the decode loop
(early return on its `kzalloc` failure); finally acknowledge the FIFO
dequeue with `RXQCR | RRXEF`. -/
def ks8851_rx_pkts3 (dev : RxDev) (a : Nat → Bool) (ai : Nat)
    (rc_rxqcr : Nat) : RxResult :=
  let rxfc := dev.rxfc % 256
  if rxfc = 0 then ⟨[], []⟩
  else
    match ks8851_rdfifolen rxfc dev.probeWords a ai with
    | (none, _) => ⟨[], []⟩
    | (some rxfifosize, ai) =>
      if !a ai then ⟨[], []⟩
      else
        let startWrites := [(KS_RXFDPR, RXFDPR_RXFPAI ||| 0x00),
                            (KS_RXQCR, rc_rxqcr ||| RXQCR_SDA)]
        let r := rx_loop dev.fifoWords dev.extraWords rxfifosize a
          rxfc 1 0 (ai + 1)
        if r.aborted then ⟨startWrites, r.delivered⟩
        else ⟨startWrites ++ [(KS_RXQCR, rc_rxqcr ||| RXQCR_RRXEF)],
              r.delivered⟩

/-! ## Receive-filter update path -/

/-- The `net_device` inputs that `ks8851_set_rx_mode` reads: the
promiscuous / all-multicast / multicast interface flags and the
multicast address list.  `ether_crc` is an external collaborator and is
passed in as `crc`. -/
structure NetFlags where
  promisc : Bool
  allmulti : Bool
  multicast : Bool
  mcList : List (List Nat)
deriving Repr

/-- The multicast-hash accumulation of `ks8851_set_rx_mode`:
`crc = ether_crc(ETH_ALEN, ha->addr); crc >>= (32 - 6);
rxctrl.mchash[crc >> 4] |= (1 << (crc & 0xf))`. -/
def mchashAdd (crcv : Nat) (r : Rxctrl) : Rxctrl :=
  let c := crcv >>> (32 - 6)
  if c >>> 4 = 0 then { r with mchash0 := r.mchash0 ||| (1 <<< (c &&& 0xf)) }
  else if c >>> 4 = 1 then { r with mchash1 := r.mchash1 ||| (1 <<< (c &&& 0xf)) }
  else if c >>> 4 = 2 then { r with mchash2 := r.mchash2 ||| (1 <<< (c &&& 0xf)) }
  else { r with mchash3 := r.mchash3 ||| (1 <<< (c &&& 0xf)) }

/-- The Receive Filter Settings value computed by `ks8851_set_rx_mode`
from the interface flags, before the comparison with the stored
settings. -/
def ks8851_mk_rxctrl (crc : List Nat → Nat) (d : NetFlags) : Rxctrl :=
  let r : Rxctrl :=
    if d.promisc then
      { Rxctrl.zero with rxcr1 := RXCR1_RXAE ||| RXCR1_RXINVF }
    else if d.allmulti then
      { Rxctrl.zero with rxcr1 :=
          RXCR1_RXME ||| RXCR1_RXAE ||| RXCR1_RXPAFMA ||| RXCR1_RXMAFMA }
    else if d.multicast && !d.mcList.isEmpty then
      let r := d.mcList.foldl (fun r ha => mchashAdd (crc ha) r) Rxctrl.zero
      { r with rxcr1 := RXCR1_RXME ||| RXCR1_RXPAFMA }
    else
      { Rxctrl.zero with rxcr1 := RXCR1_RXPAFMA }
  { r with
      rxcr1 := r.rxcr1 ||| (RXCR1_RXUE ||| RXCR1_RXBE ||| RXCR1_RXE |||
        RXCR1_RXFCE)
      rxcr2 := r.rxcr2 ||| RXCR2_SRDBL_FRAME }

/-- `ks8851_set_rx_mode`: build the new settings, and under the state
lock compare them by full-value equality (`memcmp`) with the stored
settings; only on a difference store them and schedule the deferred
`rxctrl_work`.  No device register is written here, hence the empty
write list. -/
def ks8851_set_rx_mode (crc : List Nat → Nat) (d : NetFlags) (s : KSState) :
    KSState × List (Nat × Nat) :=
  let r := ks8851_mk_rxctrl crc d
  if r ≠ s.rxctrl then
    ({ s with rxctrl := r, rxctrlWorkQueued := s.rxctrlWorkQueued + 1 }, [])
  else (s, [])

/-- `ks8851_rxctrl_work`: under the bus lock, shut the RXQ down by
writing `0` to `RXCR1`; the interrupt handler applies the stored
settings once the chip reports the receive process stopped. -/
def ks8851_rxctrl_work (s : KSState) : KSState × List (Nat × Nat) :=
  (s, [(KS_RXCR1, 0x00)])

/-! ## Event dispatcher (`ks8851_irq`) -/

/-- Events observable in one dispatcher invocation, at the granularity
the temporal claims need: lock operations, register reads and writes,
the queue wake-up, the inline receive-pipeline invocation, the
overrun-counter increment and the post-unlock link check. -/
inductive Ev where
  | lock
  | unlock
  | rdReg (reg : Nat)
  | wrReg (reg : Nat) (val : Nat)
  | wakeQueue
  | rxPipeline
  | rxOverInc
  | miiCheck
deriving DecidableEq, Repr

/-- The `handled` accumulator of `ks8851_irq`, built bit by bit in
source order. -/
def irqHandled (status : Nat) : Nat :=
  let h := 0
  let h := if status &&& IRQ_LCI ≠ 0 then h ||| IRQ_LCI else h
  let h := if status &&& IRQ_LDI ≠ 0 then h ||| IRQ_LDI else h
  let h := if status &&& IRQ_RXPSI ≠ 0 then h ||| IRQ_RXPSI else h
  let h := if status &&& IRQ_TXI ≠ 0 then h ||| IRQ_TXI else h
  let h := if status &&& IRQ_RXI ≠ 0 then h ||| IRQ_RXI else h
  if status &&& IRQ_SPIBEI ≠ 0 then h ||| IRQ_SPIBEI else h

/-- `ks8851_irq`: with the bus lock held, read `ISR` once, handle each
status bit independently (link change deferred; link down rewrites the
wake-event field of `PMECR`; transmit done re-reads `TXMIR` into
`tx_space` and wakes the queue), acknowledge all handled bits with a
single `ISR` write, then run the receive pipeline inline if receive
done was set, re-apply the stored filter settings if the receive
process stopped, count overruns, release the lock and only then report
a link change.  `pmecr` and `txmir` are the device's answers to the
respective reads; `dev`/`a` feed the inline receive pipeline.  Returns
the new driver state and the event trace. -/
def ks8851_irq (s : KSState) (status pmecr txmir : Nat) (dev : RxDev)
    (a : Nat → Bool) : KSState × List Ev :=
  let rxRes := ks8851_rx_pkts3 dev a 0 s.rc_rxqcr
  let s1 := s
  let s2 :=
    if status &&& IRQ_TXI ≠ 0 then
      { s1 with tx_space := txmir % 65536, queueStopped := false }
    else s1
  let s3 :=
    if status &&& IRQ_RXI ≠ 0 then
      { s2 with stats := { s2.stats with
          rx_packets := s2.stats.rx_packets + rxRes.delivered.length
          rx_bytes := s2.stats.rx_bytes +
            (rxRes.delivered.map RxFrame.rxlen).sum } }
    else s2
  let s4 :=
    if status &&& IRQ_RXOI ≠ 0 then
      { s3 with stats := { s3.stats with
          rx_over_errors := s3.stats.rx_over_errors + 1 } }
    else s3
  let trace :=
    [Ev.lock, Ev.rdReg KS_ISR] ++
    (if status &&& IRQ_LDI ≠ 0 then
      [Ev.rdReg KS_PMECR,
       Ev.wrReg KS_PMECR
         ((pmecr % 65536 &&& (0xffffffff ^^^ PMECR_WKEVT_MASK)) |||
           PMECR_WKEVT_LINK)]
     else []) ++
    (if status &&& IRQ_TXI ≠ 0 then [Ev.rdReg KS_TXMIR, Ev.wakeQueue]
     else []) ++
    [Ev.wrReg KS_ISR (irqHandled status)] ++
    (if status &&& IRQ_RXI ≠ 0 then
      Ev.rxPipeline :: rxRes.writes.map fun w => Ev.wrReg w.1 w.2
     else []) ++
    (if status &&& IRQ_RXPSI ≠ 0 then
      [Ev.wrReg KS_MAHTR0 s.rxctrl.mchash0,
       Ev.wrReg KS_MAHTR1 s.rxctrl.mchash1,
       Ev.wrReg KS_MAHTR2 s.rxctrl.mchash2,
       Ev.wrReg KS_MAHTR3 s.rxctrl.mchash3,
       Ev.wrReg KS_RXCR2 s.rxctrl.rxcr2,
       Ev.wrReg KS_RXCR1 s.rxctrl.rxcr1]
     else []) ++
    (if status &&& IRQ_RXOI ≠ 0 then [Ev.rxOverInc] else []) ++
    [Ev.unlock] ++
    (if status &&& IRQ_LCI ≠ 0 then [Ev.miiCheck] else [])
  (s4, trace)

/-! ## Attach and open -/

/-- The driver state as `ks8851_probe` initialises it:
`alloc_etherdev` zero-fills the private data, then
`ks->tx_space = KSZ8851_TX_SPACE` is the only field the claims care
about that probe assigns. -/
def ks8851_probe_state : KSState :=
  { tx_space := KSZ8851_TX_SPACE }

/-- `ks8851_net_open`: state effect of opening the device — cache
`rc_rxqcr` and `rc_ier` and start the queue.  The register writes it
issues (power mode, QMU reset, TX/RX setup, watermarks, interrupt
enables) touch the device, not the fields the claims are about; in
particular `tx_space` is not assigned anywhere in `ks8851_net_open`. -/
def ks8851_net_open (s : KSState) : KSState :=
  { s with
      rc_rxqcr := RXQCR_RXFCTE ||| RXQCR_RXDBCTE ||| RXQCR_RXDTTE
      rc_ier := STD_IRQ
      queueStopped := false }

/-! ## Trace predicates and concrete inputs used by the theorems -/

/-- The register written by an event, when it is a register write. -/
def evWriteReg : Ev → Option Nat
  | Ev.wrReg r _ => some r
  | _ => none

/-- An event is a write to the interrupt-status register. -/
def isStatusWrite (e : Ev) : Prop := evWriteReg e = some KS_ISR

/-- The registers of the filter re-apply block in the dispatcher. -/
def filterRegs : List Nat :=
  [KS_MAHTR0, KS_MAHTR1, KS_MAHTR2, KS_MAHTR3, KS_RXCR2, KS_RXCR1]

/-- An event is one of the filter re-apply register writes. -/
def isFilterWrite (e : Ev) : Prop := ∃ r ∈ filterRegs, evWriteReg e = some r

/-- Allocation oracle under which every allocation succeeds. -/
def allocAlways : Nat → Bool := fun _ => true

/-- Allocation oracle under which the first three allocations succeed
and the fourth (the recovery-buffer `kzalloc`) fails. -/
def allocFirst3 : Nat → Bool := fun i => decide (i < 3)

/-- Device inputs that drive the decode loop into the short-buffer
recovery path: the size probe reports one 4-byte frame (probe word
`0x0400`, i.e. `htons` of 4), while the fetched envelope word announces
a 100-byte frame, overrunning the 12-byte estimate. -/
def rxDevRecovery : RxDev :=
  { rxfc := 1
    probeWords := [1024]
    fifoWords := [0, 25600, 0, 0, 0]
    extraWords := List.replicate 21 0 }

/-- Device inputs for a small clean receive: one 8-byte frame, probe
word `0x0800` (`htons` of 8) and a matching envelope. -/
def rxDevSmall : RxDev :=
  { rxfc := 1
    probeWords := [2048]
    fifoWords := [0, 2048, 0, 0]
    extraWords := [] }

/-- Device inputs of the spec's Scenario B: the count register reports
2 frames, the per-frame byte-count registers answer 100 (`0x6400` after
`htons`) and 3000 (`0xB80B` after `htons`), and the fetched buffer
carries matching envelopes (a skipped leading word, an envelope word,
25 payload words, an envelope word, 750 payload words). -/
def rxDevScenarioB : RxDev :=
  { rxfc := 2
    probeWords := [25600, 47115]
    fifoWords := 0 :: bswap32 (100 <<< 16) ::
      (List.replicate 25 0 ++ bswap32 (3000 <<< 16) :: List.replicate 750 0)
    extraWords := [] }

/-- The `rc_rxqcr` value cached by `ks8851_net_open`. -/
def rcRxqcrOpen : Nat := RXQCR_RXFCTE ||| RXQCR_RXDBCTE ||| RXQCR_RXDTTE

/-! ## Helper lemmas -/

theorem bswap32_bytes (a b c d : Nat) (ha : a < 256) (hb : b < 256)
    (hc : c < 256) (hd : d < 256) :
    bswap32 (a + 256 * b + 65536 * c + 16777216 * d) =
      d + 256 * c + 65536 * b + 16777216 * a := by
  unfold bswap32
  omega

theorem bswap32_bswap32 (n : Nat) (h : n < 4294967296) :
    bswap32 (bswap32 n) = n := by
  have hn : n = n % 256 + 256 * (n / 256 % 256) + 65536 * (n / 65536 % 256) +
      16777216 * (n / 16777216 % 256) := by omega
  rw [hn, bswap32_bytes _ _ _ _ (by omega) (by omega) (by omega) (by omega),
    bswap32_bytes _ _ _ _ (by omega) (by omega) (by omega) (by omega)]

theorem wrpkts3_tx_space (s : KSState) (allocOk : Bool) :
    ((ks8851_wrpkts3 s allocOk).1).tx_space = s.tx_space := by
  cases allocOk <;> rfl

theorem tx_work_loop_tx_space (fuel : Nat) :
    ∀ s : KSState, (tx_work_loop fuel s).tx_space = s.tx_space := by
  induction fuel with
  | zero => intro s; rfl
  | succ n ih =>
    intro s
    unfold tx_work_loop
    by_cases h : s.txq.isEmpty
    · rw [if_pos h]
    · rw [if_neg h, ih, wrpkts3_tx_space]

/-! ## Claim theorems -/

/-- C8: for every register address, the bus-layer command word built by
the 8-bit and 16-bit register accessors equals
`(byteEnableMask << 2) | (R << 10) | (R >> 6)`, with the byte-enable
mask `1 << (R & 3)` for an 8-bit access and `0xC`/`0x3` chosen by `R & 2`
for a 16-bit access. -/
theorem c8_command_word (reg : Nat) :
    ks8851_op8 reg = specCommandWord (1 <<< (reg &&& 3)) reg ∧
    ks8851_op16 reg =
      specCommandWord (if reg &&& 2 ≠ 0 then 0xC else 0x3) reg := by
  exact ⟨rfl, rfl⟩

/-- C6: round-trip of the transmit header word — encoding a header with
frame id `X` and length `L` as the batch packer builds it (id/control in
the low 16 bits, length in the high 16 bits, byte-order conversion
applied) and decoding it again yields `(X mod the id-field width, L)`,
for any value of the interrupt-coalescing flag. -/
theorem c6_tx_header_roundtrip (X L : Nat) (ic : Bool) (hL : L < 65536) :
    ks8851_tx_hdr_decode (ks8851_tx_hdr X L ic) = (X % 8192, L) := by
  unfold ks8851_tx_hdr ks8851_tx_hdr_decode
  have hic : TXFR_TXIC = 32768 := rfl
  have hlt : L % 65536 * 65536 +
      (if ic then X % 8192 + TXFR_TXIC else X % 8192) < 4294967296 := by
    cases ic <;> simp [hic] <;> omega
  simp only [hic] at hlt ⊢
  rw [bswap32_bswap32 _ hlt]
  cases ic <;> simp only [if_pos, if_neg, Bool.false_eq_true,
    not_false_iff, ite_true, ite_false] <;>
    refine Prod.ext ?_ ?_ <;> simp <;> omega

theorem c6_tx_header_roundtrip_witness :
    1500 < 65536 ∧
      ks8851_tx_hdr_decode (ks8851_tx_hdr 9000 1500 true) = (808, 1500) :=
  ⟨by omega, c6_tx_header_roundtrip 9000 1500 true (by omega)⟩

/-- C1: the transmit producer computes `needed = 4 + align(L, 4)`; when
`needed` exceeds the space budget it returns busy and leaves both the
budget and the transmit queue unchanged, otherwise it debits the budget
by exactly `needed` and appends the frame to the queue tail. -/
theorem c1_start_xmit (s : KSState) (skb : Frame) :
    calc_txlen skb.len = 4 + align4 skb.len ∧
    (s.tx_space < calc_txlen skb.len →
      (ks8851_start_xmit skb s).2 = NetdevTx.busy ∧
      ((ks8851_start_xmit skb s).1).tx_space = s.tx_space ∧
      ((ks8851_start_xmit skb s).1).txq = s.txq) ∧
    (calc_txlen skb.len ≤ s.tx_space →
      (ks8851_start_xmit skb s).2 = NetdevTx.ok ∧
      ((ks8851_start_xmit skb s).1).tx_space =
        s.tx_space - calc_txlen skb.len ∧
      ((ks8851_start_xmit skb s).1).txq = s.txq ++ [skb]) := by
  refine ⟨rfl, fun h => ?_, fun h => ?_⟩
  · simp [ks8851_start_xmit, h]
  · simp [ks8851_start_xmit, Nat.not_lt.mpr h]

theorem c1_start_xmit_witness :
    calc_txlen 6996 = 7000 ∧ (6144 : Nat) < 7000 ∧
    (ks8851_start_xmit ⟨6996, []⟩ { tx_space := 6144 }).2 = NetdevTx.busy ∧
    ((ks8851_start_xmit ⟨6996, []⟩ { tx_space := 6144 }).1).tx_space = 6144 ∧
    ((ks8851_start_xmit ⟨6996, []⟩ { tx_space := 6144 }).1).txq = [] := by
  have h := (c1_start_xmit { tx_space := 6144 } ⟨6996, []⟩).2.1 (by decide)
  exact ⟨by decide, by decide, h.1, h.2.1, h.2.2⟩

/-- C9: every call to the transmit producer submits the deferred
transmit work exactly once, after the accept/refuse decision and on
both outcomes. -/
theorem c9_xmit_always_schedules (s : KSState) (skb : Frame) :
    ((ks8851_start_xmit skb s).1).txWorkQueued = s.txWorkQueued + 1 ∧
    (ks8851_start_xmit skb s).2 =
      (if s.tx_space < calc_txlen skb.len then NetdevTx.busy
       else NetdevTx.ok) := by
  by_cases h : s.tx_space < calc_txlen skb.len <;>
    simp [ks8851_start_xmit, h]

/-- C10: at probe, the transmit space budget is initialised to 18,432
bytes — three times the 6,144-byte batch cap, not the cap itself — and
the open path, the only other initialisation path, never assigns it. -/
theorem c10_tx_space_init :
    ks8851_probe_state.tx_space = 18432 ∧
    KSZ8851_TX_SPACE = 3 * 6144 ∧
    ks8851_probe_state.tx_space ≠ 6144 ∧
    (∀ s : KSState, (ks8851_net_open s).tx_space = s.tx_space) :=
  ⟨rfl, rfl, by decide, fun _ => rfl⟩

/-- C7: idempotence of the filter-update request — when the requested
Receive Filter Settings differ from the stored ones, requesting them
twice in succession schedules the deferred apply work exactly once (the
full-value equality comparison suppresses the second schedule), and
neither request writes a device register inline. -/
theorem c7_filter_idempotent (crc : List Nat → Nat) (d : NetFlags)
    (s : KSState) (h : ks8851_mk_rxctrl crc d ≠ s.rxctrl) :
    (((ks8851_set_rx_mode crc d
        ((ks8851_set_rx_mode crc d s).1)).1)).rxctrlWorkQueued =
      s.rxctrlWorkQueued + 1 ∧
    (ks8851_set_rx_mode crc d s).2 = [] ∧
    (ks8851_set_rx_mode crc d ((ks8851_set_rx_mode crc d s).1)).2 = [] := by
  simp [ks8851_set_rx_mode, h]

theorem c7_filter_idempotent_witness :
    ks8851_mk_rxctrl (fun _ => 0) ⟨true, false, false, []⟩ ≠
      Rxctrl.zero ∧
    (((ks8851_set_rx_mode (fun _ => 0) ⟨true, false, false, []⟩
        ((ks8851_set_rx_mode (fun _ => 0) ⟨true, false, false, []⟩
          {}).1)).1)).rxctrlWorkQueued = 1 ∧
    (ks8851_set_rx_mode (fun _ => 0) ⟨true, false, false, []⟩ {}).2 = [] := by
  have h : ks8851_mk_rxctrl (fun _ => 0) ⟨true, false, false, []⟩ ≠
      Rxctrl.zero := by decide
  have h2 := c7_filter_idempotent (fun _ => 0) ⟨true, false, false, []⟩ {} h
  exact ⟨h, h2.1, h2.2.1⟩

/-- C2: the transmit batch consumer never increases the space budget —
one `ks8851_wrpkts3` batch and the whole `ks8851_tx_work` drain leave
`tx_space` unchanged, the producer only ever decreases it, and the only
operation that increases it is the transmit-done branch of the
dispatcher, which overwrites it with the value read from the device's
free-space register. -/
theorem c2_consumer_never_increases_space :
    (∀ (s : KSState) (allocOk : Bool),
      ((ks8851_wrpkts3 s allocOk).1).tx_space = s.tx_space) ∧
    (∀ s : KSState, (ks8851_tx_work s).tx_space = s.tx_space) ∧
    (∀ (skb : Frame) (s : KSState),
      ((ks8851_start_xmit skb s).1).tx_space ≤ s.tx_space) ∧
    (∀ (s : KSState) (status pmecr txmir : Nat) (dev : RxDev)
      (a : Nat → Bool),
      ((ks8851_irq s status pmecr txmir dev a).1).tx_space =
        if status &&& IRQ_TXI ≠ 0 then txmir % 65536 else s.tx_space) := by
  refine ⟨wrpkts3_tx_space, fun s => ?_, fun skb s => ?_, ?_⟩
  · unfold ks8851_tx_work
    by_cases h : s.txq.isEmpty
    · rw [if_pos h]
    · rw [if_neg h, tx_work_loop_tx_space]
  · by_cases h : s.tx_space < calc_txlen skb.len <;>
      simp [ks8851_start_xmit, h]
  · intro s status pmecr txmir dev a
    by_cases h1 : status &&& IRQ_TXI ≠ 0 <;>
      by_cases h2 : status &&& IRQ_RXI ≠ 0 <;>
      by_cases h3 : status &&& IRQ_RXOI ≠ 0 <;>
      simp [ks8851_irq, h1, h2, h3]

theorem rx_loop_no_abort (cur extra : List Nat) (sz : Nat) (a : Nat → Bool)
    (ha : ∀ i, a i = true) :
    ∀ n idx t ai, (rx_loop cur extra sz a n idx t ai).aborted = false := by
  intro n
  induction n with
  | zero => intro idx t ai; rfl
  | succ m ih =>
    intro idx t ai
    simp only [rx_loop, ha, Bool.not_true, Bool.false_eq_true, if_false,
      apply_ite RxLoopResult.aborted]
    split_ifs <;> first | rfl | exact ih _ _ _

/-- C3 as corrected: an invocation of the receive pipeline that
proceeds past the zero-frame-count check and in which every buffer
allocation succeeds ends by writing the RX-FIFO dequeue acknowledgment
(`RXQCR` with the release-frame bit), regardless of how many frames
were decoded.  (A buffer allocation failure, by contrast, returns early
without reaching this write — see the counterexample.) -/
theorem c3_rx_ack_when_allocs_succeed (dev : RxDev) (a : Nat → Bool)
    (ai rc : Nat) (ha : ∀ i, a i = true) (hfc : dev.rxfc % 256 ≠ 0) :
    (ks8851_rx_pkts3 dev a ai rc).writes.getLast? =
      some (KS_RXQCR, rc ||| RXQCR_RRXEF) := by
  unfold ks8851_rx_pkts3 ks8851_rdfifolen
  rw [if_neg hfc]
  simp only [ha, Bool.not_true, Bool.false_eq_true, if_false,
    rx_loop_no_abort dev.fifoWords dev.extraWords _ a ha]
  exact List.getLast?_concat _

/-- C3 counterexample: with the device reporting one queued frame and
the recovery-buffer `kzalloc` failing mid-receive, the pipeline
proceeds past the zero-frame-count check, starts the DMA, and returns
without ever writing the RX-FIFO dequeue acknowledgment. -/
theorem c3_counterexample :
    rxDevRecovery.rxfc % 256 ≠ 0 ∧
    (ks8851_rx_pkts3 rxDevRecovery allocFirst3 0 rcRxqcrOpen).writes =
      [(KS_RXFDPR, RXFDPR_RXFPAI ||| 0x00),
       (KS_RXQCR, rcRxqcrOpen ||| RXQCR_SDA)] ∧
    (KS_RXQCR, rcRxqcrOpen ||| RXQCR_RRXEF) ∉
      (ks8851_rx_pkts3 rxDevRecovery allocFirst3 0 rcRxqcrOpen).writes := by
  refine ⟨by decide, by decide, by decide⟩

theorem c3_rx_ack_witness :
    (∀ i, allocAlways i = true) ∧ rxDevSmall.rxfc % 256 ≠ 0 ∧
    (ks8851_rx_pkts3 rxDevSmall allocAlways 0 rcRxqcrOpen).writes.getLast? =
      some (KS_RXQCR, rcRxqcrOpen ||| RXQCR_RRXEF) :=
  ⟨fun _ => rfl, by decide,
    c3_rx_ack_when_allocs_succeed rxDevSmall allocAlways 0 rcRxqcrOpen
      (fun _ => rfl) (by decide)⟩

/-- C4 counterexample: for probe words answering frame lengths 100 and
3000, the size probe of the code produces the estimate
`ALIGN(100,4)+4 + ALIGN(3000,4)+4 + 4 = 3112`, not 3104 as the claim
states. -/
theorem c4_counterexample :
    bswap16 (25600 % 65536) % 4096 = 100 ∧
    bswap16 (47115 % 65536) % 4096 = 3000 ∧
    (ks8851_rdfifolen 2 [25600, 47115] allocAlways 0).1 = some 3112 ∧
    (3112 : Nat) ≠ 3104 := by
  refine ⟨by decide, by decide, by decide, by decide⟩

/-- C4 as corrected: for a receive-count register reporting 2 frames
whose per-frame byte-count registers give lengths 100 and 3000, the
size probe produces the single estimate 3112 bytes (accumulating
`align(len,4)+4` per frame plus a trailing word, capped at the maximum
FIFO size), and the decode loop delivers exactly two frames upward with
true lengths 100 and 3000. -/
theorem c4_scenario_b :
    (ks8851_rdfifolen 2 rxDevScenarioB.probeWords allocAlways 0).1 =
      some 3112 ∧
    ((ks8851_rx_pkts3 rxDevScenarioB allocAlways 0 rcRxqcrOpen).delivered.map
      RxFrame.rxlen) = [100, 3000] ∧
    (ks8851_rx_pkts3 rxDevScenarioB allocAlways 0
      rcRxqcrOpen).delivered.length = 2 ∧
    (ks8851_rx_pkts3 rxDevScenarioB allocAlways 0
      rcRxqcrOpen).writes.getLast? =
      some (KS_RXQCR, rcRxqcrOpen ||| RXQCR_RRXEF) := by
  refine ⟨by decide, ?_, ?_, ?_⟩ <;> rfl


theorem rx_pkts3_writes_regs (dev : RxDev) (a : Nat → Bool) (ai rc : Nat) :
    ∀ w ∈ (ks8851_rx_pkts3 dev a ai rc).writes,
      w.1 = KS_RXFDPR ∨ w.1 = KS_RXQCR := by
  intro w hw
  simp only [ks8851_rx_pkts3] at hw
  split at hw
  · simp at hw
  · split at hw
    · simp at hw
    · split at hw
      · simp at hw
      · split at hw
        · simp at hw
          rcases hw with rfl | rfl <;> simp
        · simp at hw
          rcases hw with rfl | rfl | rfl <;> simp

/-- C5: within one dispatcher invocation all handled status bits are
acknowledged with a single write back to the status register, and that
acknowledgment occurs before the inline receive-pipeline invocation,
before the filter re-apply writes and before the link-change
notification; the link-change notification itself happens only after
the bus lock is released.  Formally the trace splits as
`pre ++ ack :: (mid ++ unlock :: post)`, where no segment contains
another status-register write, `pre` contains neither the receive
pipeline, a filter write nor the link notification, and the link
notification can only sit in `post`, after the unlock. -/
theorem c5_irq_ack_ordering (s : KSState) (status pmecr txmir : Nat)
    (dev : RxDev) (a : Nat → Bool) :
    ∃ pre mid post,
      (ks8851_irq s status pmecr txmir dev a).2 =
        pre ++ Ev.wrReg KS_ISR (irqHandled status) ::
          (mid ++ Ev.unlock :: post) ∧
      (∀ e ∈ pre, ¬ isStatusWrite e ∧ e ≠ Ev.rxPipeline ∧
        ¬ isFilterWrite e ∧ e ≠ Ev.miiCheck) ∧
      (∀ e ∈ mid, ¬ isStatusWrite e ∧ e ≠ Ev.miiCheck) ∧
      (∀ e ∈ post, ¬ isStatusWrite e) := by
  refine ⟨[Ev.lock, Ev.rdReg KS_ISR] ++
      (if status &&& IRQ_LDI ≠ 0 then
        [Ev.rdReg KS_PMECR, Ev.wrReg KS_PMECR
          ((pmecr % 65536 &&& (0xffffffff ^^^ PMECR_WKEVT_MASK)) |||
            PMECR_WKEVT_LINK)]
       else []) ++
      (if status &&& IRQ_TXI ≠ 0 then [Ev.rdReg KS_TXMIR, Ev.wakeQueue]
       else []),
    (if status &&& IRQ_RXI ≠ 0 then
      Ev.rxPipeline :: (ks8851_rx_pkts3 dev a 0 s.rc_rxqcr).writes.map
        (fun w => Ev.wrReg w.1 w.2)
     else []) ++
      (if status &&& IRQ_RXPSI ≠ 0 then
        [Ev.wrReg KS_MAHTR0 s.rxctrl.mchash0,
         Ev.wrReg KS_MAHTR1 s.rxctrl.mchash1,
         Ev.wrReg KS_MAHTR2 s.rxctrl.mchash2,
         Ev.wrReg KS_MAHTR3 s.rxctrl.mchash3,
         Ev.wrReg KS_RXCR2 s.rxctrl.rxcr2,
         Ev.wrReg KS_RXCR1 s.rxctrl.rxcr1]
       else []) ++
      (if status &&& IRQ_RXOI ≠ 0 then [Ev.rxOverInc] else []),
    (if status &&& IRQ_LCI ≠ 0 then [Ev.miiCheck] else []),
    ?_, ?_, ?_, ?_⟩
  · simp only [ks8851_irq]
    simp [List.append_assoc]
  · intro e he
    simp only [List.mem_append] at he
    rcases he with (he | he) | he
    · simp at he
      rcases he with rfl | rfl <;>
        simp [isStatusWrite, isFilterWrite, evWriteReg]
    · split_ifs at he <;> simp at he
      rcases he with rfl | rfl <;>
        simp [isStatusWrite, isFilterWrite, evWriteReg, filterRegs,
          KS_PMECR, KS_ISR, KS_MAHTR0, KS_MAHTR1, KS_MAHTR2, KS_MAHTR3,
          KS_RXCR1, KS_RXCR2]
    · split_ifs at he <;> simp at he
      rcases he with rfl | rfl <;>
        simp [isStatusWrite, isFilterWrite, evWriteReg, filterRegs,
          KS_TXMIR, KS_ISR, KS_MAHTR0, KS_MAHTR1, KS_MAHTR2, KS_MAHTR3,
          KS_RXCR1, KS_RXCR2]
  · intro e he
    simp only [List.mem_append] at he
    rcases he with (he | he) | he
    · split_ifs at he <;> simp at he
      rcases he with rfl | he
      · simp [isStatusWrite, evWriteReg]
      · obtain ⟨w, v, hmem, rfl⟩ := he
        have hreg := rx_pkts3_writes_regs dev a 0 s.rc_rxqcr (w, v) hmem
        rcases hreg with h | h <;> simp at h <;>
          simp [isStatusWrite, evWriteReg, h, KS_RXFDPR, KS_RXQCR, KS_ISR]
    · split_ifs at he <;> simp at he
      rcases he with rfl | rfl | rfl | rfl | rfl | rfl <;>
        simp [isStatusWrite, evWriteReg, KS_MAHTR0, KS_MAHTR1, KS_MAHTR2,
          KS_MAHTR3, KS_RXCR1, KS_RXCR2, KS_ISR]
    · split_ifs at he <;> simp at he
      subst he
      simp [isStatusWrite, evWriteReg]
  · intro e he
    split_ifs at he <;> simp at he
    subst he
    simp [isStatusWrite, evWriteReg]

end KS8851
